import Mathlib

/-
  A shallow embedding of the recruitment-ai-service repository
  (fastapi/app/core/processing.py, fastapi/app/main.py,
  fastapi/app/core/exceptions.py, skill_classifier.py), together with
  theorems settling the specification claims about it.

  External library behaviour (Python json.loads, the HTTP transport) is
  modelled by explicit parameters; everything the repository itself
  computes is embedded as executable Lean definitions.
-/

/-- Python single-character whitespace test, as used by str.strip() with no
argument, restricted to the ASCII whitespace characters (space, tab,
newline, carriage return, vertical tab 0x0b, form feed 0x0c). -/
def pyIsSpace (c : Char) : Bool :=
  c = ' ' || c = '\t' || c = '\n' || c = '\r' || c = Char.ofNat 11 || c = Char.ofNat 12

/-- Trim trailing whitespace from a character list (the right half of
Python str.strip()). -/
def trimR (cs : List Char) : List Char :=
  (cs.reverse.dropWhile pyIsSpace).reverse

/-- Python str.strip() on a character list: drop whitespace from both ends. -/
def pyStripL (cs : List Char) : List Char :=
  trimR (cs.dropWhile pyIsSpace)

/-- Python str.strip() on a string. -/
def pyStrip (s : String) : String :=
  String.mk (pyStripL s.data)

/-- Python str.upper() over the ASCII range. -/
def pyUpper (s : String) : String :=
  String.mk (s.data.map Char.toUpper)

/-- Python str.split on a single comma: every comma is a separator, empty
pieces are kept, and the empty string splits to one empty piece. -/
def splitOnComma : List Char → List (List Char)
  | [] => [[]]
  | c :: rest =>
    if c = ',' then [] :: splitOnComma rest
    else
      match splitOnComma rest with
      | [] => [[c]]
      | h :: t => (c :: h) :: t

/-- A decoded JSON value (the result type of Python json.loads). -/
inductive JVal where
  | null
  | bool (b : Bool)
  | num (n : Int)
  | str (s : String)
  | arr (xs : List JVal)
  | obj (kvs : List (String × JVal))

/-- Python dict .get(key): the first binding of the key, if any (the keys of
a decoded JSON dict are unique, so first-binding lookup is dict lookup). -/
def jGet (kvs : List (String × JVal)) (k : String) : Option JVal :=
  match kvs with
  | [] => none
  | (k0, v) :: rest => if k0 = k then some v else jGet rest k

/-- Python dict assignment d[k] = v: overwrite the binding of k if present,
otherwise append a new binding at the end. -/
def jSet (kvs : List (String × JVal)) (k : String) (v : JVal) : List (String × JVal) :=
  match kvs with
  | [] => [(k, v)]
  | (k0, v0) :: rest => if k0 = k then (k0, v) :: rest else (k0, v0) :: jSet rest k v

/-- The ASCII apostrophe (0x27), kept out of string literals. -/
def apos : String := String.singleton (Char.ofNat 39)

/-- The right single quotation mark U+2019 used in the source's
department-mapping key. -/
def rsquo : String := String.singleton (Char.ofNat 8217)

/-- The career-field label CEO's Executive Office (ASCII apostrophe), as it
appears both in the extraction prompt and in the department mapping of
processing.py. -/
def ceoField : String := "CEO" ++ apos ++ "s Executive Office"

/-- The department label Ceo's Office, spelled in the source with the
right single quotation mark U+2019. -/
def ceoDept : String := "Ceo" ++ rsquo ++ "s Office"

/-- The static department_mapping dict of get_department_for_career_field
(processing.py lines 297-308), in source order. -/
def department_mapping : List (String × List String) :=
  [("Engineering & Product",
    ["Software Development", "Quality Assurance", "Product Management",
     "Business Development", "Design"]),
   ("Partner Onboarding & Support", ["Operations", "Customer Education"]),
   ("Business Customer Success", ["Sales", "Sales Operations"]),
   ("Finance", ["Finance & Business Support"]),
   ("Marketing", ["Marketing and Communications", "Marketing Design"]),
   ("People & Culture", ["Human Resources"]),
   ("MindBehind", ["MindBehind"]),
   (ceoDept, [ceoField])]

/-- The for-loop of get_department_for_career_field: scan the mapping in
order, return the first department whose field list contains the career
field, else the default. -/
def findDept : List (String × List String) → String → String
  | [], _ => "Unknown Department"
  | (dept, fields) :: rest, cf => if cf ∈ fields then dept else findDept rest cf

/-- get_department_for_career_field (processing.py lines 295-313). -/
def get_department_for_career_field (career_field : String) : String :=
  findDept department_mapping career_field

/-- The fixed career-field vocabulary enumerated in the extract_cv_info
prompt (processing.py lines 240-247), in prompt order, including the
duplicated Product Management entry. -/
def prompt_career_fields : List String :=
  ["Software Development", "Quality Assurance", "Product Management",
   "Business Development", "Design", "Product Management",
   "Operations", "Customer Education",
   "Sales", "Sales Operations",
   "Finance & Business Support",
   "Marketing and Communications", "Marketing Design",
   "Human Resources",
   "MindBehind",
   ceoField]

/-- The Python exceptions the embedded functions can raise.  valueError and
connectionError are the two distinct raises of extract_cv_info (ValueError
for unusable model content, ConnectionError for an httpx.RequestError);
attributeError models the uncaught AttributeError when the decoded JSON is
not a dict; exn models a bare raise Exception(...). -/
inductive PyErr where
  | valueError (msg : String)
  | connectionError (msg : String)
  | attributeError
  | exn (msg : String)

/-- The body of a successful /api/chat response as extract_cv_info reads
it: response.json().get("message", ...).get("content", "") — none models a
missing message or content field, which the chained .get turns into the
empty string. -/
structure ChatResp where
  content : Option String

/-- The content string extract_cv_info reads from a chat response. -/
def chatContent (r : ChatResp) : String := r.content.getD ""

/-- get_department_for_career_field applied to a decoded JSON value: the
Python membership test career_field in fields over a list of str can only
ever match when the looked-up value is itself a string. -/
def getDepartmentJ (v : JVal) : String :=
  match v with
  | .str s => get_department_for_career_field s
  | _ => "Unknown Department"

/-- extract_cv_info (processing.py lines 236-293), parameterised over the
json.loads decoder (none models a raised JSONDecodeError), the chat-call
transport outcome (error models a raised httpx.RequestError), and — to let
theorems speak about whether the department resolver is consulted — the
resolver itself.  On empty stripped content it raises ValueError; on a
decode failure it raises ValueError; on a decoded non-dict the .get call
raises AttributeError; otherwise it reads career_field (defaulting the
sentinel "unknown" when the key is absent), resolves the department, and
stores it under the key department. -/
def extract_cv_info_calls (res : JVal → String) (loads : String → Option JVal)
    (chat : Except String ChatResp) : Except PyErr (List (String × JVal)) :=
  match chat with
  | .error e => .error (.connectionError ("Failed to communicate with Ollama: " ++ e))
  | .ok r =>
    let result := pyStrip (chatContent r)
    if result = "" then
      .error (.valueError "Ollama returned an empty content string.")
    else
      match loads result with
      | none => .error (.valueError ("Ollama returned a malformed JSON. Raw response: " ++ result))
      | some (JVal.obj kvs) =>
        let career_field := (jGet kvs "career_field").getD (JVal.str "unknown")
        let department := res career_field
        .ok (jSet kvs "department" (JVal.str department))
      | some _ => .error .attributeError

/-- extract_cv_info with its actual department resolver. -/
def extract_cv_info (loads : String → Option JVal) (chat : Except String ChatResp) :
    Except PyErr (List (String × JVal)) :=
  extract_cv_info_calls getDepartmentJ loads chat

/-- The list comprehension shared by both skill lists of
extract_skills_from_text (processing.py lines 103 and 108): split on
commas, strip each piece, keep the non-empty ones. -/
def extract_comma_skills (s : String) : List String :=
  ((splitOnComma s.data).map fun cs => String.mk (pyStripL cs)).filter fun x => x != ""

/-- The pair of lists extract_skills_from_text returns. -/
structure SkillsResult where
  tech_skills : List String
  soft_skills : List String

/-- extract_skills_from_text (processing.py lines 40-110), parameterised
over the transport outcomes of its two sequential generate calls; a
successful outcome carries the response field of the reply body.  Either
transport failure raises (the bare Exception of line 101) and no skill
lists are produced; on success each reply is stripped, the tech reply is
comma-parsed unconditionally, and the soft reply is comma-parsed unless
its uppercased whole text is NONE. -/
def extract_skills_from_text (tech : Except String String) (soft : Except String String) :
    Except PyErr SkillsResult :=
  match tech with
  | .error e => .error (.exn ("Failed to communicate with Ollama for skills extraction: " ++ e))
  | .ok techBody =>
    match soft with
    | .error e => .error (.exn ("Failed to communicate with Ollama for skills extraction: " ++ e))
    | .ok softBody =>
      let tech_skills_str := pyStrip techBody
      let soft_skills_str := pyStrip softBody
      let tech_skills := extract_comma_skills tech_skills_str
      let soft_skills :=
        if pyUpper soft_skills_str = "NONE" then [] else extract_comma_skills soft_skills_str
      .ok ⟨tech_skills, soft_skills⟩

/-- The left square bracket character 0x5b. -/
def lbrack : Char := Char.ofNat 91

/-- The right square bracket character 0x5d. -/
def rbrack : Char := Char.ofNat 93

/-- The left curly brace character 0x7b. -/
def lbrace : Char := Char.ofNat 123

/-- The right curly brace character 0x7d. -/
def rbrace : Char := Char.ofNat 125

/-- The index of the first occurrence of a character (Python str.index;
none models the raised ValueError). -/
def findIdx (c : Char) : List Char → Option Nat
  | [] => none
  | x :: xs => if x = c then some 0 else (findIdx c xs).map (· + 1)

/-- The index of the last occurrence of a character (Python str.rindex). -/
def rfindIdx (c : Char) (xs : List Char) : Option Nat :=
  (findIdx c xs.reverse).map fun i => xs.length - 1 - i

/-- The JSON-extraction step of classify_skills (skill_classifier.py lines
27-34): slice the raw response between the first left bracket and one past
the last right bracket, decode the slice, and on any failure — missing
bracket or decode error — return the error dictionary as an ordinary
value instead of raising. -/
def classify_skills_extract (loads : String → Option JVal) (raw_response : String) : JVal :=
  match findIdx lbrack raw_response.data, rfindIdx rbrack raw_response.data with
  | some start, some last =>
    let json_part := String.mk ((raw_response.data.drop start).take (last + 1 - start))
    match loads json_part with
    | some v => v
    | none => JVal.obj [("error", JVal.str "Failed to extract JSON"), ("raw", JVal.str raw_response)]
  | _, _ => JVal.obj [("error", JVal.str "Failed to extract JSON"), ("raw", JVal.str raw_response)]

/-- Modelled from the spec for comparison under claim C2: the spec's
extract_json_object locates the first left brace and the last right brace
in the raw text, decodes the substring between them, and on a missing pair
or a decode failure signals a MalformedModelOutput failure. -/
def extract_json_object_spec (loads : String → Option JVal) (text : String) : Except String JVal :=
  match findIdx lbrace text.data, rfindIdx rbrace text.data with
  | some start, some last =>
    match loads (String.mk ((text.data.drop start).take (last + 1 - start))) with
    | some v => .ok v
    | none => .error "MalformedModelOutput"
  | _, _ => .error "MalformedModelOutput"

/-- The failures an embedded endpoint can raise: EmptyStringError (status
400, code EMPTY_STRING, from exceptions.py lines 17-20) or an Exception
propagated out of a processing helper. -/
inductive EndpointErr where
  | emptyString (msg : String)
  | exn (msg : String)

/-- posting_to_embedding_endpoint (main.py lines 94-102), parameterised
over the generate_posting_vector transport (the vector type itself is a
pass-through).  A falsy or whitespace-only posting string raises
EmptyStringError before the embedding helper is consulted. -/
def posting_to_embedding_endpoint {V : Type} (generate_posting_vector : String → Except String V)
    (posting_string : String) : Except EndpointErr V :=
  if posting_string == "" || pyStrip posting_string == "" then
    .error (.emptyString "given string is not valid")
  else
    match generate_posting_vector posting_string with
    | .ok v => .ok v
    | .error e => .error (.exn ("Failed to communicate with Ollama for embedding: " ++ e))

/-- postings_to_embeddings_endpoint (main.py lines 123-132): the for loop
raises EmptyStringError as soon as any element of postings is falsy or
whitespace-only, before the batch embedding helper is consulted. -/
def postings_to_embeddings_endpoint {V : Type}
    (generate_embedding_from_postings : List String → Except String (List V))
    (postings : List String) : Except EndpointErr (List V) :=
  if postings.any (fun p => p == "" || pyStrip p == "") then
    .error (.emptyString "given string is not valid")
  else
    match generate_embedding_from_postings postings with
    | .ok vs => .ok vs
    | .error e => .error (.exn ("Failed to communicate with Ollama for embedding: " ++ e))

/-- A decoder refusing every input, for concrete counterexamples. -/
def loadsNone : String → Option JVal := fun _ => none

/-- A decoder accepting exactly the two-character text of an empty JSON
object, for the claim C1 counterexample. -/
def loadsEmptyObj : String → Option JVal :=
  fun s => if s = "\x7b\x7d" then some (JVal.obj []) else none

/-- A decoder accepting exactly the text x as a one-key object, for the
claim C1 witness. -/
def loadsNamed : String → Option JVal :=
  fun s => if s = "x" then some (JVal.obj [("first_name", JVal.str "Ada")]) else none

/-- A decoder accepting exactly the three-character text of a one-element
JSON array, for the claim C2 witness. -/
def loadsArr : String → Option JVal :=
  fun s => if s = "[1]" then some (JVal.arr [JVal.num 1]) else none

/-- Whether a character list does not start with a whitespace character. -/
def headNotSpace (cs : List Char) : Bool :=
  match cs with
  | [] => true
  | c :: _ => !pyIsSpace c

/-- Whether a string carries no leading and no trailing whitespace. -/
def isTrimmed (x : String) : Bool :=
  headNotSpace x.data && headNotSpace x.data.reverse

/-- A key just written by jSet is looked up by jGet at the written value. -/
theorem jGet_jSet_self (kvs : List (String × JVal)) (k : String) (v : JVal) :
    jGet (jSet kvs k v) k = some v := by
  induction kvs with
  | nil => simp [jSet, jGet]
  | cons hd tl ih =>
    obtain ⟨k0, v0⟩ := hd
    by_cases hk : k0 = k
    · simp [jSet, jGet, hk]
    · simp [jSet, jGet, hk, ih]

/-- Writing one key with jSet leaves every other key's jGet lookup
unchanged. -/
theorem jGet_jSet_other (kvs : List (String × JVal)) (k k' : String) (v : JVal)
    (h : k' ≠ k) : jGet (jSet kvs k v) k' = jGet kvs k' := by
  induction kvs with
  | nil =>
    have hne : k ≠ k' := fun hh => h hh.symm
    simp [jSet, jGet, hne]
  | cons hd tl ih =>
    obtain ⟨k0, v0⟩ := hd
    by_cases hk : k0 = k
    · subst hk
      have hne : k0 ≠ k' := fun hh => h hh.symm
      simp [jSet, jGet, hne]
    · simp [jSet, jGet, hk, ih]

/-- A career field contained in no field list of the mapping scans the
whole mapping and falls through to the default department. -/
theorem findDept_not_mem :
    ∀ (m : List (String × List String)) (cf : String),
      (∀ p ∈ m, cf ∉ p.2) → findDept m cf = "Unknown Department"
  | [], _, _ => rfl
  | (d, fs) :: rest, cf, h => by
    have h1 : cf ∉ fs := h (d, fs) (List.mem_cons_self _ _)
    show (if cf ∈ fs then d else findDept rest cf) = "Unknown Department"
    rw [if_neg h1]
    exact findDept_not_mem rest cf fun p hp => h p (List.mem_cons_of_mem _ hp)

/-- C1 (corrected): when the chat content is non-empty and decodes to a
JSON object, extract_cv_info returns exactly the model's keys plus a
department binding — a key the model omitted stays absent rather than
being defaulted to the sentinel, and only career_field is read with the
default "unknown", solely as the department-lookup input. -/
theorem C1_amended (loads : String → Option JVal) (r : ChatResp) (kvs : List (String × JVal))
    (h1 : pyStrip (chatContent r) ≠ "")
    (h2 : loads (pyStrip (chatContent r)) = some (JVal.obj kvs)) :
    extract_cv_info loads (.ok r) =
      .ok (jSet kvs "department"
        (JVal.str (getDepartmentJ ((jGet kvs "career_field").getD (JVal.str "unknown"))))) ∧
    (∀ k : String, k ≠ "department" →
      jGet (jSet kvs "department"
        (JVal.str (getDepartmentJ ((jGet kvs "career_field").getD (JVal.str "unknown"))))) k =
        jGet kvs k) := by
  constructor
  · simp [extract_cv_info, extract_cv_info_calls, h1, h2]
  · intro k hk
    exact jGet_jSet_other kvs "department" k _ hk

/-- C1 counterexample: a successful extraction whose model reply is the
empty JSON object returns a result in which first_name (like the other
four fixed keys) is absent, not bound to the sentinel "unknown". -/
theorem C1_counterexample :
    extract_cv_info loadsEmptyObj (.ok ⟨some "\x7b\x7d"⟩) =
      .ok [("department", JVal.str "Unknown Department")] ∧
    jGet [("department", JVal.str "Unknown Department")] "first_name" = none :=
  ⟨rfl, rfl⟩

/-- C1 witness: the amended theorem applied to a one-key model reply. -/
theorem C1_witness :
    extract_cv_info loadsNamed (.ok ⟨some "x"⟩) =
      .ok (jSet [("first_name", JVal.str "Ada")] "department"
        (JVal.str (getDepartmentJ
          ((jGet [("first_name", JVal.str "Ada")] "career_field").getD (JVal.str "unknown"))))) ∧
    (∀ k : String, k ≠ "department" →
      jGet (jSet [("first_name", JVal.str "Ada")] "department"
        (JVal.str (getDepartmentJ
          ((jGet [("first_name", JVal.str "Ada")] "career_field").getD (JVal.str "unknown"))))) k =
        jGet [("first_name", JVal.str "Ada")] k) :=
  C1_amended loadsNamed ⟨some "x"⟩ [("first_name", JVal.str "Ada")] (by decide) rfl

/-- C4: extract_skills_from_text succeeds exactly when both underlying
model calls succeed — a transport failure of either call fails the whole
task and no partial skill pair is produced — while two successful replies
that parse to zero items are a valid empty result, not an error. -/
theorem C4_theorem :
    (∀ tech soft : Except String String,
      (extract_skills_from_text tech soft).isOk ↔ (tech.isOk ∧ soft.isOk)) ∧
    extract_skills_from_text (.ok " ") (.ok " ") = .ok ⟨[], []⟩ := by
  constructor
  · intro tech soft
    cases tech <;> cases soft <;> simp [extract_skills_from_text, Except.isOk, Except.toBool]
  · rfl

/-- C5: a contact-extraction chat reply with empty or missing content
makes extract_cv_info fail with the empty-content ValueError, a failure
distinct from the transport-level ConnectionError, and the result is the
same for every department resolver — the resolver is never consulted. -/
theorem C5_theorem (loads : String → Option JVal) (r : ChatResp)
    (h : pyStrip (chatContent r) = "") :
    extract_cv_info loads (.ok r) =
      .error (.valueError "Ollama returned an empty content string.") ∧
    (∀ res : JVal → String,
      extract_cv_info_calls res loads (.ok r) = extract_cv_info loads (.ok r)) ∧
    (∀ m1 m2 : String, PyErr.valueError m1 ≠ PyErr.connectionError m2) := by
  refine ⟨?_, ?_, ?_⟩
  · simp [extract_cv_info, extract_cv_info_calls, h]
  · intro res
    simp [extract_cv_info, extract_cv_info_calls, h]
  · intro m1 m2 hc
    exact PyErr.noConfusion hc

/-- C5 witness: the theorem applied to a reply with a missing content
field. -/
theorem C5_witness :
    extract_cv_info loadsNone (.ok ⟨none⟩) =
      .error (.valueError "Ollama returned an empty content string.") ∧
    (∀ res : JVal → String,
      extract_cv_info_calls res loadsNone (.ok ⟨none⟩) = extract_cv_info loadsNone (.ok ⟨none⟩)) ∧
    (∀ m1 m2 : String, PyErr.valueError m1 ≠ PyErr.connectionError m2) :=
  C5_theorem loadsNone ⟨none⟩ (by decide)

/-- C6 (corrected): the NONE escape hatch is applied only to the
soft-skill reply — a soft reply whose stripped text uppercases to NONE
yields the empty soft list while the tech reply is still comma-parsed
literally. -/
theorem C6_amended (t s : String) (h : pyUpper (pyStrip s) = "NONE") :
    extract_skills_from_text (.ok t) (.ok s) = .ok ⟨extract_comma_skills (pyStrip t), []⟩ := by
  simp [extract_skills_from_text, h]

/-- C6 counterexample: a tech-skill reply consisting of the token NONE is
returned as the one-item list containing the word NONE, not as the empty
sequence the claim requires for both replies. -/
theorem C6_counterexample :
    extract_skills_from_text (.ok "NONE") (.ok "Teamwork") = .ok ⟨["NONE"], ["Teamwork"]⟩ ∧
    (["NONE"] : List String) ≠ [] :=
  ⟨rfl, by decide⟩

/-- C6 witness: the amended theorem applied to a mixed-case soft reply. -/
theorem C6_witness :
    extract_skills_from_text (.ok "Python") (.ok "nOnE") = .ok ⟨["Python"], []⟩ :=
  C6_amended "Python" "nOnE" (by decide)

/-- C7: department resolution is a pure total lookup — every career field
present in the static mapping resolves to that field's department, and
every absent value (the sentinel included) resolves to Unknown
Department. -/
theorem C7_theorem :
    (∀ cf : String, (∀ p ∈ department_mapping, cf ∉ p.2) →
      get_department_for_career_field cf = "Unknown Department") ∧
    (∀ p ∈ department_mapping, ∀ cf ∈ p.2, get_department_for_career_field cf = p.1) := by
  constructor
  · intro cf h
    exact findDept_not_mem department_mapping cf h
  · decide

/-- C7 witness: the theorem applied to the sentinel and to a mapped
field. -/
theorem C7_witness :
    get_department_for_career_field "unknown" = "Unknown Department" ∧
    get_department_for_career_field "Sales" = "Business Customer Success" :=
  ⟨C7_theorem.1 "unknown" (by decide),
   C7_theorem.2 ("Business Customer Success", ["Sales", "Sales Operations"]) (by decide)
     "Sales" (by decide)⟩

/-- C8: a falsy or whitespace-only posting string makes the posting
endpoint fail with EmptyStringError, and the outcome is identical for
every embedding transport — no model call is issued. -/
theorem C8_theorem {V : Type} (g1 g2 : String → Except String V) (s : String)
    (h : pyStrip s = "") :
    posting_to_embedding_endpoint g1 s = .error (.emptyString "given string is not valid") ∧
    posting_to_embedding_endpoint g1 s = posting_to_embedding_endpoint g2 s := by
  have hb : (s == "" || pyStrip s == "") = true := by simp [h]
  constructor <;> simp [posting_to_embedding_endpoint, hb]

/-- C8 witness: the theorem applied to a whitespace-only posting and two
transports that disagree. -/
theorem C8_witness :
    posting_to_embedding_endpoint (fun _ => Except.ok (0 : Nat)) "  " =
      .error (.emptyString "given string is not valid") ∧
    posting_to_embedding_endpoint (fun _ => Except.ok (0 : Nat)) "  " =
      posting_to_embedding_endpoint (fun _ => Except.error "down") "  " :=
  C8_theorem (fun _ => Except.ok (0 : Nat)) (fun _ => Except.error "down") "  " (by decide)

/-- C9: every career-field label enumerated in the contact-extraction
prompt is covered by the static mapping — none of them resolves to
Unknown Department. -/
theorem C9_theorem :
    ∀ f ∈ prompt_career_fields, get_department_for_career_field f ≠ "Unknown Department" := by
  decide

/-- C9 witness: the theorem applied to one prompt label. -/
theorem C9_witness : get_department_for_career_field "MindBehind" ≠ "Unknown Department" :=
  C9_theorem "MindBehind" (by decide)

/-- C10: one blank element among the bulk postings makes the bulk
endpoint fail with EmptyStringError, and the outcome is identical for
every batch-embedding transport — no model call is issued even when the
other elements are valid. -/
theorem C10_theorem {V : Type} (g1 g2 : List String → Except String (List V))
    (postings : List String) (p : String) (hp : p ∈ postings) (hblank : pyStrip p = "") :
    postings_to_embeddings_endpoint g1 postings =
      .error (.emptyString "given string is not valid") ∧
    postings_to_embeddings_endpoint g1 postings = postings_to_embeddings_endpoint g2 postings := by
  have hb : postings.any (fun q => q == "" || pyStrip q == "") = true :=
    List.any_eq_true.mpr ⟨p, hp, by simp [hblank]⟩
  constructor <;> simp [postings_to_embeddings_endpoint, hb]

/-- C10 witness: the theorem applied to a list with one valid and one
whitespace-only element. -/
theorem C10_witness :
    postings_to_embeddings_endpoint (fun _ => Except.ok ([0] : List Nat))
      ["Great posting", "  "] = .error (.emptyString "given string is not valid") ∧
    postings_to_embeddings_endpoint (fun _ => Except.ok ([0] : List Nat))
      ["Great posting", "  "] =
      postings_to_embeddings_endpoint (fun _ => Except.error "down") ["Great posting", "  "] :=
  C10_theorem (fun _ => Except.ok ([0] : List Nat)) (fun _ => Except.error "down")
    ["Great posting", "  "] "  " (by decide) (by decide)

/-- Dropping a whitespace run from the front leaves a list that does not
start with whitespace. -/
theorem headNotSpace_dropWhile (l : List Char) :
    headNotSpace (l.dropWhile pyIsSpace) = true := by
  induction l with
  | nil => rfl
  | cons c cs ih =>
    by_cases h : pyIsSpace c = true
    · simp [List.dropWhile_cons, h, ih]
    · simp [List.dropWhile_cons, h, headNotSpace]

/-- dropWhile returns a suffix of its input. -/
theorem dropWhile_isSuffix (p : Char → Bool) (l : List Char) : l.dropWhile p <:+ l := by
  induction l with
  | nil => exact ⟨[], rfl⟩
  | cons c cs ih =>
    by_cases h : p c = true
    · rw [List.dropWhile_cons, if_pos h]
      exact ih.trans ⟨[c], rfl⟩
    · rw [List.dropWhile_cons, if_neg h]

/-- trimR returns a prefix of its input. -/
theorem trimR_isPrefix (l : List Char) : trimR l <+: l := by
  have h := dropWhile_isSuffix pyIsSpace l.reverse
  have h2 : (l.reverse.dropWhile pyIsSpace).reverse <+: l.reverse.reverse :=
    List.reverse_prefix.mpr h
  simpa [trimR] using h2

/-- A prefix of a list that does not start with whitespace does not start
with whitespace either. -/
theorem headNotSpace_of_isPrefix (l m : List Char) (h : l <+: m)
    (hm : headNotSpace m = true) : headNotSpace l = true := by
  cases l with
  | nil => rfl
  | cons c cs =>
    obtain ⟨t, ht⟩ := h
    rw [← ht] at hm
    exact hm

/-- The stripped form of any character list starts with no whitespace. -/
theorem headNotSpace_pyStripL (cs : List Char) : headNotSpace (pyStripL cs) = true :=
  headNotSpace_of_isPrefix _ _ (trimR_isPrefix _) (headNotSpace_dropWhile cs)

/-- The stripped form of any character list ends with no whitespace. -/
theorem headNotSpace_pyStripL_reverse (cs : List Char) :
    headNotSpace (pyStripL cs).reverse = true := by
  have h : (pyStripL cs).reverse = (cs.dropWhile pyIsSpace).reverse.dropWhile pyIsSpace := by
    simp [pyStripL, trimR]
  rw [h]
  exact headNotSpace_dropWhile _

/-- Stripping produces a trimmed string. -/
theorem isTrimmed_pyStripL (cs : List Char) : isTrimmed (String.mk (pyStripL cs)) = true := by
  simp [isTrimmed, headNotSpace_pyStripL, headNotSpace_pyStripL_reverse]

/-- Every entry produced by the comma-list comprehension is non-empty and
trimmed. -/
theorem extract_comma_skills_all (s : String) :
    ((extract_comma_skills s).all fun x => x != "" && isTrimmed x) = true := by
  rw [List.all_eq_true]
  intro x hx
  rw [extract_comma_skills] at hx
  have hx1 := List.of_mem_filter hx
  have hx2 := List.mem_of_mem_filter hx
  obtain ⟨cs, _, rfl⟩ := List.mem_map.mp hx2
  simp only [Bool.and_eq_true]
  exact ⟨hx1, isTrimmed_pyStripL cs⟩

/-- C3 (corrected): both skill lists of a successful extraction contain
only non-empty, whitespace-trimmed entries and are order-preserving
selections of the trimmed comma-split of the corresponding model reply;
duplicate entries are retained, not removed. -/
theorem C3_amended (t s : String) (r : SkillsResult)
    (h : extract_skills_from_text (.ok t) (.ok s) = .ok r) :
    ((r.tech_skills ++ r.soft_skills).all fun x => x != "" && isTrimmed x) = true ∧
    r.tech_skills.Sublist
      ((splitOnComma (pyStrip t).data).map fun cs => String.mk (pyStripL cs)) ∧
    r.soft_skills.Sublist
      ((splitOnComma (pyStrip s).data).map fun cs => String.mk (pyStripL cs)) := by
  simp only [extract_skills_from_text] at h
  injection h with h
  subst h
  refine ⟨?_, ?_, ?_⟩
  · by_cases hn : pyUpper (pyStrip s) = "NONE" <;>
      simp [hn, extract_comma_skills_all]
  · exact List.filter_sublist _
  · by_cases hn : pyUpper (pyStrip s) = "NONE"
    · simp [hn, List.nil_sublist]
    · simp only [if_neg hn]
      exact List.filter_sublist _

/-- C3 counterexample: a model reply that repeats a skill is returned with
the duplicate kept — the lists are not deduplicated by trimmed value as
the claim states. -/
theorem C3_counterexample :
    extract_skills_from_text (.ok "Python, Python") (.ok "Teamwork, Teamwork") =
      .ok ⟨["Python", "Python"], ["Teamwork", "Teamwork"]⟩ ∧
    ¬ (["Python", "Python"] : List String).Nodup :=
  ⟨rfl, by decide⟩

/-- C3 witness: the amended theorem applied to replies with prose spacing
and a NONE soft reply. -/
theorem C3_witness :
    ((["a", "b"] ++ ([] : List String)).all fun x => x != "" && isTrimmed x) = true ∧
    (["a", "b"] : List String).Sublist
      ((splitOnComma (pyStrip " a , b ").data).map fun cs => String.mk (pyStripL cs)) ∧
    ([] : List String).Sublist
      ((splitOnComma (pyStrip "NONE").data).map fun cs => String.mk (pyStripL cs)) :=
  C3_amended " a , b " "NONE" ⟨["a", "b"], []⟩ rfl

/-- Scanning past a clean prefix finds the first occurrence right after
it. -/
theorem findIdx_append_first (c : Char) (xs ys : List Char) (h : c ∉ xs) :
    findIdx c (xs ++ c :: ys) = some xs.length := by
  induction xs with
  | nil => simp [findIdx]
  | cons x xs ih =>
    have h1 : c ≠ x ∧ c ∉ xs := by simpa [List.mem_cons, not_or] using h
    have hx : ¬(x = c) := fun he => h1.1 he.symm
    simp [findIdx, hx, ih h1.2]

/-- Dropping an exact prefix leaves the tail. -/
theorem drop_len_append {α : Type} (l₁ l₂ : List α) : (l₁ ++ l₂).drop l₁.length = l₂ := by
  induction l₁ with
  | nil => rfl
  | cons a l ih => simp [ih]

/-- Taking an exact prefix plus n keeps the prefix and takes n of the
tail. -/
theorem take_len_append {α : Type} (l₁ l₂ : List α) (n : Nat) :
    (l₁ ++ l₂).take (l₁.length + n) = l₁ ++ l₂.take n := by
  induction l₁ with
  | nil => simp
  | cons a l ih =>
    have h : (a :: l).length + n = (l.length + n) + 1 := by simp; omega
    rw [h]
    simp [List.take_succ_cons, ih]

/-- classify_skills_extract with both bracket indices found reduces to
decoding the slice between them. -/
theorem classify_skills_extract_found (loads : String → Option JVal) (raw : String)
    (i j : Nat) (hi : findIdx lbrack raw.data = some i)
    (hj : rfindIdx rbrack raw.data = some j) :
    classify_skills_extract loads raw =
      match loads (String.mk ((raw.data.drop i).take (j + 1 - i))) with
      | some v => v
      | none => JVal.obj [("error", JVal.str "Failed to extract JSON"),
                          ("raw", JVal.str raw)] := by
  unfold classify_skills_extract
  rw [hi, hj]

/-- C2 (corrected): the JSON extraction of classify_skills slices between
the first left square bracket and the last right square bracket, ignoring
any prose before and after that pair, and when no left bracket exists it
returns the error dictionary as an ordinary fallback value instead of
signalling a failure. -/
theorem C2_amended (loads : String → Option JVal) (pre mid post : List Char)
    (hpre : lbrack ∉ pre) (hpost : rbrack ∉ post) :
    (classify_skills_extract loads (String.mk (pre ++ lbrack :: (mid ++ rbrack :: post))) =
      match loads (String.mk (lbrack :: (mid ++ [rbrack]))) with
      | some v => v
      | none =>
        JVal.obj [("error", JVal.str "Failed to extract JSON"),
                  ("raw", JVal.str (String.mk (pre ++ lbrack :: (mid ++ rbrack :: post))))]) ∧
    (∀ raw : String, findIdx lbrack raw.data = none →
      classify_skills_extract loads raw =
        JVal.obj [("error", JVal.str "Failed to extract JSON"), ("raw", JVal.str raw)]) := by
  constructor
  · have hdata : (String.mk (pre ++ lbrack :: (mid ++ rbrack :: post))).data
        = pre ++ lbrack :: (mid ++ rbrack :: post) := rfl
    have hA : findIdx lbrack (String.mk (pre ++ lbrack :: (mid ++ rbrack :: post))).data
        = some pre.length := by
      rw [hdata]
      exact findIdx_append_first lbrack pre (mid ++ rbrack :: post) hpre
    have hrev : (pre ++ lbrack :: (mid ++ rbrack :: post)).reverse
        = post.reverse ++ rbrack :: ((lbrack :: mid).reverse ++ pre.reverse) := by
      simp
    have hpost' : rbrack ∉ post.reverse := by simpa using hpost
    have hB' : findIdx rbrack (pre ++ lbrack :: (mid ++ rbrack :: post)).reverse
        = some post.length := by
      rw [hrev]
      have h := findIdx_append_first rbrack post.reverse
        ((lbrack :: mid).reverse ++ pre.reverse) hpost'
      simpa using h
    have hB : rfindIdx rbrack (String.mk (pre ++ lbrack :: (mid ++ rbrack :: post))).data
        = some (pre.length + mid.length + 1) := by
      rw [hdata]
      unfold rfindIdx
      rw [hB']
      have hlen : (pre ++ lbrack :: (mid ++ rbrack :: post)).length
          = pre.length + mid.length + post.length + 2 := by simp; omega
      simp only [Option.map_some']
      rw [hlen]
      congr 1
      omega
    rw [classify_skills_extract_found loads _ pre.length (pre.length + mid.length + 1) hA hB]
    have hslice : (((String.mk (pre ++ lbrack :: (mid ++ rbrack :: post))).data.drop
        pre.length).take (pre.length + mid.length + 1 + 1 - pre.length))
        = lbrack :: (mid ++ [rbrack]) := by
      rw [hdata, drop_len_append]
      have h2 : pre.length + mid.length + 1 + 1 - pre.length = (mid.length + 1) + 1 := by omega
      rw [h2, List.take_succ_cons]
      have h3 := take_len_append mid (rbrack :: post) 1
      simpa using h3
    rw [hslice]
  · intro raw h
    unfold classify_skills_extract
    rw [h]

/-- C2 counterexample: on text with no brace pair the code path returns
the error dictionary as a value while the extractor the claim describes
signals a MalformedModelOutput failure. -/
theorem C2_counterexample :
    classify_skills_extract loadsNone "hello" =
      JVal.obj [("error", JVal.str "Failed to extract JSON"), ("raw", JVal.str "hello")] ∧
    extract_json_object_spec loadsNone "hello" = .error "MalformedModelOutput" :=
  ⟨rfl, rfl⟩

/-- C2 witness: the amended theorem applied to a bracketed payload with
prose on both sides. -/
theorem C2_witness :
    (classify_skills_extract loadsArr
        (String.mk ([' '] ++ lbrack :: (['1'] ++ rbrack :: ['!']))) =
      match loadsArr (String.mk (lbrack :: (['1'] ++ [rbrack]))) with
      | some v => v
      | none =>
        JVal.obj [("error", JVal.str "Failed to extract JSON"),
                  ("raw", JVal.str (String.mk ([' '] ++ lbrack :: (['1'] ++ rbrack :: ['!']))))]) ∧
    (∀ raw : String, findIdx lbrack raw.data = none →
      classify_skills_extract loadsArr raw =
        JVal.obj [("error", JVal.str "Failed to extract JSON"), ("raw", JVal.str raw)]) :=
  C2_amended loadsArr [' '] ['1'] ['!'] (by decide) (by decide)
